import Mathlib

/-!
Verification of the single-file Streamlit demo application (src/app.py).

The script builds two synthetic pandas DataFrames, keeps a small per-session
key-value record, and renders one of eight pages selected in the sidebar.
We embed:

* the numpy random primitives the generators call, as a deterministic PRNG
  that is faithful to the documented output RANGE of each primitive
  (uniform(lo, hi) lands in [lo, hi), randint(lo, hi) in [lo, hi),
  choice(xs) in xs; the normal-family draws are unbounded-range values and
  no range is claimed for them) and to the threading of the single global
  numpy RNG state (np.random.seed resets it; every draw advances it);
* the two generator functions generate_sample_data and
  generate_timeseries_data, column by column in source order;
* the per-rerun session-state transition of the script (initialisation,
  sidebar Reset Session button, the counter increment, and the
  Advanced Features page effects: messages initialisation, Add Message,
  Clear Messages, st.stop, the Rerun App button, and the fragment counter);
* a per-page render function recording the emitted widgets that the claims
  mention and the pandas operations that can raise (DataFrame.sample(n)
  raises when n exceeds the row count and replace=False).
-/

namespace StreamlitDemo

/-! Model of the global numpy RNG.  The state is a natural number below
2 to the 64; each primitive advances it by one linear-congruential step. -/

/-- Modulus of the RNG state space. -/
def rngMod : Nat := 2 ^ 64

/-- Denominator used to turn a state into a fraction in [0, 1). -/
def fracDenom : Nat := 2 ^ 53

/-- One step of the underlying generator (a linear congruential map). -/
def lcg (s : Nat) : Nat := (6364136223846793005 * s + 1442695040888963407) % rngMod

/-- Draw a rational in [0, 1) and the advanced state. -/
def randFrac (s : Nat) : ℚ × Nat :=
  let s2 := lcg s
  (((s2 % fracDenom : Nat) : ℚ) / (fracDenom : ℚ), s2)

/-- Model of np.random.uniform(lo, hi): a value in [lo, hi) when lo < hi. -/
def npUniform (lo hi : ℚ) (s : Nat) : ℚ × Nat :=
  let p := randFrac s
  (lo + p.1 * (hi - lo), p.2)

/-- Model of np.random.randint(lo, hi): an integer in [lo, hi) when lo < hi. -/
def npRandint (lo hi : Nat) (s : Nat) : Nat × Nat :=
  let s2 := lcg s
  (lo + s2 % (hi - lo), s2)

/-- Model of np.random.choice(xs): an element of xs when xs is nonempty. -/
def npChoice (xs : List String) (s : Nat) : String × Nat :=
  let s2 := lcg s
  (xs.getD (s2 % xs.length) "", s2)

/-- Model of a single np.random.randn() draw: a standard-normal sample,
modelled as an unbounded-range rational function of the state (the
distribution itself is not modelled; no claim constrains its range). -/
def npRandn (s : Nat) : ℚ × Nat :=
  let p := randFrac s
  (6 * p.1 - 3, p.2)

/-- Model of a single np.random.normal(mu, sigma) draw. -/
def npNormal (mu sigma : ℚ) (s : Nat) : ℚ × Nat :=
  let p := npRandn s
  (mu + sigma * p.1, p.2)

/-- Model of np.random.seed(n): the global state is reset to a value
determined by n alone. -/
def npSeed (n : Nat) : Nat := n % rngMod

/-- Draw a list of n values with a given primitive, threading the state. -/
def draws (f : Nat → α × Nat) : Nat → Nat → List α × Nat
  | 0, s => ([], s)
  | n + 1, s =>
    let p := f s
    let q := draws f n p.2
    (p.1 :: q.1, q.2)

/-- Running cumulative sum, as np.cumsum. -/
def cumsum (acc : ℚ) : List ℚ → List ℚ
  | [] => []
  | x :: xs => (acc + x) :: cumsum (acc + x) xs

/-! Calendar arithmetic, for the pd.date_range columns. -/

/-- Gregorian leap-year rule. -/
def isLeap (y : Nat) : Bool := y % 4 == 0 && (y % 100 != 0 || y % 400 == 0)

/-- Length of month m (1-based) of year y. -/
def monthLength (y m : Nat) : Nat :=
  if m = 2 then (if isLeap y then 29 else 28)
  else if m = 4 ∨ m = 6 ∨ m = 9 ∨ m = 11 then 30
  else 31

/-- Days in the months of year y strictly before month m (1-based). -/
def daysBeforeMonth (y m : Nat) : Nat :=
  ((List.range (m - 1)).map (fun i => monthLength y (i + 1))).sum

/-- Days in the years strictly before year y (proleptic Gregorian). -/
def daysBeforeYear (y : Nat) : Nat :=
  let n := y - 1
  n * 365 + n / 4 - n / 100 + n / 400

/-- Proleptic Gregorian ordinal of the civil date y-m-d, with
0001-01-01 having ordinal 1 (as datetime.date.toordinal). -/
def toOrdinal (y m d : Nat) : Nat :=
  daysBeforeYear y + daysBeforeMonth y m + d

/-- Model of pd.date_range(start, periods := n, freq := D) as a list of
day ordinals: n consecutive days from the start day. -/
def dateRangeDaily (startOrd n : Nat) : List Nat :=
  (List.range n).map (fun i => startOrd + i)

/-- Model of pd.date_range(start, periods := n, freq := H) as a list of
hour numbers: n consecutive hours from midnight of the start day. -/
def dateRangeHourly (startOrd n : Nat) : List Nat :=
  (List.range n).map (fun i => startOrd * 24 + i)

/-! The DataFrame model: a list of named columns of cells. -/

/-- One cell of a DataFrame. -/
inductive Cell where
  | str (s : String)
  | int (n : Nat)
  | rat (q : ℚ)
  | date (ordinal : Nat)
deriving DecidableEq

/-- A DataFrame: named columns, each a list of cells. -/
abbrev DataFrame : Type := List (String × List Cell)

/-- Column names of a DataFrame, in order. -/
def columnNames (df : DataFrame) : List String :=
  df.map Prod.fst

/-- Look a column up by name. -/
def getColumn (name : String) (df : DataFrame) : Option (List Cell) :=
  List.lookup name df

/-- Row count of a DataFrame (length of its first column, 0 when empty). -/
def nRows (df : DataFrame) : Nat :=
  match df with
  | [] => 0
  | c :: _ => c.2.length

/-! The two generators, embedded from src/app.py lines 57-86. -/

/-- Options of the category column. -/
def categoryValues : List String := ["A", "B", "C", "D"]

/-- Options of the status column. -/
def statusValues : List String := ["Active", "Inactive", "Pending"]

/-- The ten column names of the sample dataset, in construction order. -/
def sampleColumns : List String :=
  ["timestamp", "category", "value", "count", "temperature", "humidity",
   "status", "latitude", "longitude", "score"]

/-- Embedding of generate_sample_data (src/app.py lines 57-75).  It first
resets the global RNG with np.random.seed(42) - so the incoming state s0
is discarded - then builds the ten columns in source order.  The result
pairs the DataFrame with the outgoing global RNG state. -/
def generate_sample_data (rows : Nat) (s0 : Nat) : DataFrame × Nat :=
  let _ := s0
  let s := npSeed 42
  let dates := dateRangeHourly (toOrdinal 2023 1 1) rows
  let cats := draws (npChoice categoryValues) rows s
  let vals := draws npRandn rows cats.2
  let value := (cumsum 0 vals.1).map (fun v => v + 100)
  let counts := draws (npRandint 1 100) rows vals.2
  let temps := draws (npNormal 25 5) rows counts.2
  let hums := draws (npUniform 30 90) rows temps.2
  let stats := draws (npChoice statusValues) rows hums.2
  let lats := draws (npUniform (407 / 10) (408 / 10)) rows stats.2
  let lons := draws (npUniform (-74) (-739 / 10)) rows lats.2
  let scores := draws (npUniform 0 100) rows lons.2
  ([("timestamp", dates.map Cell.date),
    ("category", cats.1.map Cell.str),
    ("value", value.map Cell.rat),
    ("count", counts.1.map Cell.int),
    ("temperature", temps.1.map Cell.rat),
    ("humidity", hums.1.map Cell.rat),
    ("status", stats.1.map Cell.str),
    ("latitude", lats.1.map Cell.rat),
    ("longitude", lons.1.map Cell.rat),
    ("score", scores.1.map Cell.rat)], scores.2)

/-- Embedding of generate_timeseries_data (src/app.py lines 78-86).  It
contains no call to np.random.seed, so its three metric columns are drawn
from the incoming global RNG state s0. -/
def generate_timeseries_data (s0 : Nat) : DataFrame × Nat :=
  let dates := dateRangeDaily (toOrdinal 2023 1 1) 365
  let m1 := draws npRandn 365 s0
  let metric1 := (cumsum 0 m1.1).map (fun v => v + 50)
  let m2 := draws npRandn 365 m1.2
  let metric2 := (cumsum 0 m2.1).map (fun v => v + 30)
  let m3 := draws npRandn 365 m2.2
  let metric3 := (cumsum 0 m3.1).map (fun v => v + 70)
  ([("date", dates.map Cell.date),
    ("metric1", metric1.map Cell.rat),
    ("metric2", metric2.map Cell.rat),
    ("metric3", metric3.map Cell.rat)], m3.2)

/-! Basic lemmas about the RNG primitives and list helpers. -/

/-- One unfolding step of draws. -/
theorem draws_succ (f : Nat → α × Nat) (n s : Nat) :
    draws f (n + 1) s = ((f s).1 :: (draws f n (f s).2).1, (draws f n (f s).2).2) := rfl

/-- One unfolding step of cumsum. -/
theorem cumsum_cons (a x : ℚ) (xs : List ℚ) :
    cumsum a (x :: xs) = (a + x) :: cumsum (a + x) xs := rfl

/-- Value component of npChoice. -/
theorem npChoice_fst (xs : List String) (s : Nat) :
    (npChoice xs s).1 = xs.getD (lcg s % xs.length) "" := rfl

/-- An npChoice draw from a nonempty list is a member of the list. -/
theorem npChoice_mem (xs : List String) (s : Nat) (h : xs ≠ []) : (npChoice xs s).1 ∈ xs := by
  rw [npChoice_fst]
  have hl : 0 < xs.length := List.length_pos.mpr h
  have hidx : lcg s % xs.length < xs.length := Nat.mod_lt _ hl
  rw [List.getD_eq_getElem _ _ hidx]
  exact List.getElem_mem hidx

/-- Value component of randFrac. -/
theorem randFrac_fst (s : Nat) :
    (randFrac s).1 = ((lcg s % fracDenom : Nat) : ℚ) / (fracDenom : ℚ) := rfl

/-- A randFrac draw is nonnegative. -/
theorem randFrac_nonneg (s : Nat) : 0 ≤ (randFrac s).1 := by
  rw [randFrac_fst]
  positivity

/-- A randFrac draw is below one. -/
theorem randFrac_lt_one (s : Nat) : (randFrac s).1 < 1 := by
  rw [randFrac_fst]
  have hF : (0 : ℚ) < ((fracDenom : Nat) : ℚ) := by norm_num [fracDenom]
  rw [div_lt_one hF]
  exact_mod_cast Nat.mod_lt _ (by norm_num [fracDenom])

/-- Value component of npUniform. -/
theorem npUniform_fst (lo hi : ℚ) (s : Nat) :
    (npUniform lo hi s).1 = lo + (randFrac s).1 * (hi - lo) := rfl

/-- An npUniform draw lands in [lo, hi). -/
theorem npUniform_bounds (lo hi : ℚ) (s : Nat) (h : lo < hi) :
    lo ≤ (npUniform lo hi s).1 ∧ (npUniform lo hi s).1 < hi := by
  have h0 := randFrac_nonneg s
  have h1 := randFrac_lt_one s
  rw [npUniform_fst]
  constructor
  · nlinarith
  · nlinarith

/-- Value component of npRandint. -/
theorem npRandint_fst (lo hi : Nat) (s : Nat) :
    (npRandint lo hi s).1 = lo + lcg s % (hi - lo) := rfl

/-- An npRandint draw lands in [lo, hi). -/
theorem npRandint_bounds (lo hi s : Nat) (h : lo < hi) :
    lo ≤ (npRandint lo hi s).1 ∧ (npRandint lo hi s).1 < hi := by
  rw [npRandint_fst]
  have := Nat.mod_lt (lcg s) (y := hi - lo) (by omega)
  omega

/-- Every element of a draws list satisfies any property the primitive
guarantees of a single draw from an arbitrary state. -/
theorem mem_draws {α : Type} {f : Nat → α × Nat} {P : α → Prop}
    (hf : ∀ s, P (f s).1) : ∀ n s x, x ∈ (draws f n s).1 → P x := by
  intro n
  induction n with
  | zero => intro s x hx; simp [draws] at hx
  | succ k ih =>
    intro s x hx
    simp only [draws] at hx
    rcases List.mem_cons.mp hx with h | h
    · exact h ▸ hf s
    · exact ih _ _ h

/-- A draws list has the requested length. -/
theorem draws_length {α : Type} (f : Nat → α × Nat) : ∀ n s, ((draws f n s).1).length = n := by
  intro n
  induction n with
  | zero => intro s; simp [draws]
  | succ k ih => intro s; simp only [draws, List.length_cons, ih]

/-- cumsum preserves length. -/
theorem cumsum_length : ∀ (xs : List ℚ) (a : ℚ), (cumsum a xs).length = xs.length := by
  intro xs
  induction xs with
  | nil => intro a; simp [cumsum]
  | cons x t ih => intro a; simp only [cumsum, List.length_cons, ih]

/-- Every cell of the named column (when present) satisfies P. -/
def colForall (name : String) (df : DataFrame) (P : Cell → Prop) : Prop :=
  ∀ c ∈ (getColumn name df).getD [], P c

/-! Claim C1: shape and ranges of the sample dataset. -/

/-- The property C1 states of the sample dataset: exactly n rows, exactly
the ten named columns, and each range-constrained column within its
generation range. -/
def sampleDataSpec (n s0 : Nat) : Prop :=
  columnNames (generate_sample_data n s0).1 = sampleColumns ∧
  (∀ col ∈ (generate_sample_data n s0).1, col.2.length = n) ∧
  colForall "category" (generate_sample_data n s0).1
    (fun c => ∃ v, c = Cell.str v ∧ v ∈ categoryValues) ∧
  colForall "count" (generate_sample_data n s0).1
    (fun c => ∃ k, c = Cell.int k ∧ 1 ≤ k ∧ k < 100) ∧
  colForall "humidity" (generate_sample_data n s0).1
    (fun c => ∃ q, c = Cell.rat q ∧ 30 ≤ q ∧ q ≤ 90) ∧
  colForall "status" (generate_sample_data n s0).1
    (fun c => ∃ v, c = Cell.str v ∧ v ∈ statusValues) ∧
  colForall "latitude" (generate_sample_data n s0).1
    (fun c => ∃ q, c = Cell.rat q ∧ 407 / 10 ≤ q ∧ q < 408 / 10) ∧
  colForall "longitude" (generate_sample_data n s0).1
    (fun c => ∃ q, c = Cell.rat q ∧ -74 ≤ q ∧ q < -739 / 10) ∧
  colForall "score" (generate_sample_data n s0).1
    (fun c => ∃ q, c = Cell.rat q ∧ 0 ≤ q ∧ q < 100)

set_option maxRecDepth 8000 in
/-- The category column holds values drawn from the four category options. -/
theorem sample_category (n s0 : Nat) :
    colForall "category" (generate_sample_data n s0).1
      (fun c => ∃ v, c = Cell.str v ∧ v ∈ categoryValues) := by
  intro c hc
  simp [generate_sample_data, getColumn, List.lookup] at hc
  obtain ⟨v, hv, rfl⟩ := hc
  exact ⟨v, rfl, mem_draws (P := fun v => v ∈ categoryValues)
    (fun s2 => npChoice_mem categoryValues s2 (by simp [categoryValues])) n _ v hv⟩

set_option maxRecDepth 8000 in
/-- The status column holds values drawn from the three status options. -/
theorem sample_status (n s0 : Nat) :
    colForall "status" (generate_sample_data n s0).1
      (fun c => ∃ v, c = Cell.str v ∧ v ∈ statusValues) := by
  intro c hc
  simp [generate_sample_data, getColumn, List.lookup] at hc
  obtain ⟨v, hv, rfl⟩ := hc
  exact ⟨v, rfl, mem_draws (P := fun v => v ∈ statusValues)
    (fun s2 => npChoice_mem statusValues s2 (by simp [statusValues])) n _ v hv⟩

set_option maxRecDepth 8000 in
/-- The count column holds integers in [1, 100). -/
theorem sample_count (n s0 : Nat) :
    colForall "count" (generate_sample_data n s0).1
      (fun c => ∃ k, c = Cell.int k ∧ 1 ≤ k ∧ k < 100) := by
  intro c hc
  simp [generate_sample_data, getColumn, List.lookup] at hc
  obtain ⟨k, hk, rfl⟩ := hc
  exact ⟨k, rfl, mem_draws (P := fun k => 1 ≤ k ∧ k < 100)
    (fun s2 => npRandint_bounds 1 100 s2 (by norm_num)) n _ k hk⟩

set_option maxRecDepth 8000 in
/-- The humidity column holds rationals in [30, 90]. -/
theorem sample_humidity (n s0 : Nat) :
    colForall "humidity" (generate_sample_data n s0).1
      (fun c => ∃ q, c = Cell.rat q ∧ 30 ≤ q ∧ q ≤ 90) := by
  intro c hc
  simp [generate_sample_data, getColumn, List.lookup] at hc
  obtain ⟨q, hq, rfl⟩ := hc
  have h := mem_draws (P := fun q : ℚ => 30 ≤ q ∧ q < 90)
    (fun s2 => npUniform_bounds 30 90 s2 (by norm_num)) n _ q hq
  exact ⟨q, rfl, h.1, le_of_lt h.2⟩

set_option maxRecDepth 8000 in
/-- The latitude column holds rationals in [40.7, 40.8). -/
theorem sample_latitude (n s0 : Nat) :
    colForall "latitude" (generate_sample_data n s0).1
      (fun c => ∃ q, c = Cell.rat q ∧ 407 / 10 ≤ q ∧ q < 408 / 10) := by
  intro c hc
  simp [generate_sample_data, getColumn, List.lookup] at hc
  obtain ⟨q, hq, rfl⟩ := hc
  exact ⟨q, rfl, mem_draws (P := fun q : ℚ => 407 / 10 ≤ q ∧ q < 408 / 10)
    (fun s2 => npUniform_bounds (407 / 10) (408 / 10) s2 (by norm_num)) n _ q hq⟩

set_option maxRecDepth 8000 in
/-- The longitude column holds rationals in [-74.0, -73.9). -/
theorem sample_longitude (n s0 : Nat) :
    colForall "longitude" (generate_sample_data n s0).1
      (fun c => ∃ q, c = Cell.rat q ∧ -74 ≤ q ∧ q < -739 / 10) := by
  intro c hc
  simp [generate_sample_data, getColumn, List.lookup] at hc
  obtain ⟨q, hq, rfl⟩ := hc
  exact ⟨q, rfl, mem_draws (P := fun q : ℚ => -74 ≤ q ∧ q < -739 / 10)
    (fun s2 => npUniform_bounds (-74) (-739 / 10) s2 (by norm_num)) n _ q hq⟩

set_option maxRecDepth 8000 in
/-- The score column holds rationals in [0, 100). -/
theorem sample_score (n s0 : Nat) :
    colForall "score" (generate_sample_data n s0).1
      (fun c => ∃ q, c = Cell.rat q ∧ 0 ≤ q ∧ q < 100) := by
  intro c hc
  simp [generate_sample_data, getColumn, List.lookup] at hc
  obtain ⟨q, hq, rfl⟩ := hc
  exact ⟨q, rfl, mem_draws (P := fun q : ℚ => 0 ≤ q ∧ q < 100)
    (fun s2 => npUniform_bounds 0 100 s2 (by norm_num)) n _ q hq⟩

set_option maxRecDepth 8000 in
/-- The sample dataset has exactly the ten named columns, in order. -/
theorem sample_columnNames (n s0 : Nat) :
    columnNames (generate_sample_data n s0).1 = sampleColumns := by
  simp [generate_sample_data, columnNames, sampleColumns]

set_option maxRecDepth 8000 in
/-- Every column of the sample dataset has exactly n entries. -/
theorem sample_lengths (n s0 : Nat) :
    ∀ col ∈ (generate_sample_data n s0).1, col.2.length = n := by
  simp only [generate_sample_data]
  simp [List.forall_mem_cons, dateRangeHourly, draws_length, cumsum_length, List.length_map,
    List.length_range]

/-- C1: for every row count N in [100, 2000], generate_sample_data(N)
returns a table with exactly N rows and exactly the ten named columns,
and every generated value lies within its specified generation range
(humidity in [30, 90], count in [1, 100), score in [0, 100), latitude in
[40.7, 40.8), longitude in [-74.0, -73.9), category and status among
their option lists). -/
theorem sample_data_shape_and_ranges (n s0 : Nat) (h1 : 100 ≤ n) (h2 : n ≤ 2000) :
    sampleDataSpec n s0 :=
  ⟨sample_columnNames n s0, sample_lengths n s0, sample_category n s0, sample_count n s0,
   sample_humidity n s0, sample_status n s0, sample_latitude n s0, sample_longitude n s0,
   sample_score n s0⟩

/-- Witness for C1: the theorem applied at the concrete row count 100. -/
theorem sample_data_shape_and_ranges_witness :
    100 ≤ 100 ∧ 100 ≤ 2000 ∧ sampleDataSpec 100 0 :=
  ⟨by decide, by decide, sample_data_shape_and_ranges 100 0 (by decide) (by decide)⟩

/-! Claim C2: the time-series dataset spans exactly one calendar year. -/

/-- The property C2 states of the time-series dataset: every column has
exactly 365 entries, the date column is the 365 consecutive days starting
at 2023-01-01, and the 365th of those days is 2023-12-31. -/
def timeseriesSpec (s0 : Nat) : Prop :=
  (∀ col ∈ (generate_timeseries_data s0).1, col.2.length = 365) ∧
  getColumn "date" (generate_timeseries_data s0).1 =
    some (((List.range 365).map (fun i => toOrdinal 2023 1 1 + i)).map Cell.date) ∧
  toOrdinal 2023 1 1 + 364 = toOrdinal 2023 12 31

set_option maxRecDepth 8000 in
/-- C2: generate_timeseries_data always returns a table with exactly 365
rows whose date column holds the consecutive daily dates from 2023-01-01
through 2023-12-31 inclusive. -/
theorem timeseries_one_year (s0 : Nat) : timeseriesSpec s0 := by
  refine ⟨?_, ?_, ?_⟩
  · simp only [generate_timeseries_data]
    simp [List.forall_mem_cons, dateRangeDaily, draws_length, cumsum_length]
  · simp [generate_timeseries_data, getColumn, List.lookup, dateRangeDaily]
  · decide

/-! Claim C4: determinism of the two generators.  generate_sample_data
reseeds the global RNG with the fixed seed 42 on every execution, so its
output is a function of the row count alone.  generate_timeseries_data
never seeds, so its output depends on the incoming global RNG state and
two invocations from different states can disagree. -/

set_option maxRecDepth 8000 in
/-- Value of the metric1 column of the time-series dataset. -/
theorem ts_metric1 (s : Nat) :
    getColumn "metric1" (generate_timeseries_data s).1 =
      some (((cumsum 0 (draws npRandn 365 s).1).map (fun v => v + 50)).map Cell.rat) := by
  simp [generate_timeseries_data, getColumn, List.lookup]

/-- First cell of the metric1 column of the time-series dataset. -/
theorem ts_metric1_head (s : Nat) :
    (getColumn "metric1" (generate_timeseries_data s).1).bind List.head? =
      some (Cell.rat ((npRandn s).1 + 50)) := by
  rw [ts_metric1, show (365 : Nat) = 364 + 1 from rfl, draws_succ]
  rw [cumsum_cons, List.map_cons, List.map_cons]
  simp only [Option.some_bind, List.head?_cons, zero_add]

/-- Counterexample for C4: two invocations of generate_timeseries_data
from the RNG states 0 and 1 return different tables (their first metric1
cells already differ), so the claim that every pair of invocations of
generate_timeseries_data returns the identical table is false. -/
theorem timeseries_two_runs_differ :
    (generate_timeseries_data 0).1 ≠ (generate_timeseries_data 1).1 := by
  intro h
  have h2 := congrArg (fun df => (getColumn "metric1" df).bind List.head?) h
  simp only [ts_metric1_head] at h2
  norm_num [npRandn, randFrac, lcg, rngMod, fracDenom] at h2

/-- C4 as amended: generate_sample_data is deterministic - it reseeds the
global RNG with seed 42, so for every pair of invocations with the same
row count, also from arbitrary and distinct incoming RNG states, it
returns the identical table.  No such property holds of the unseeded
generate_timeseries_data, whose output varies with the incoming state. -/
theorem sample_data_deterministic (n s1 s2 : Nat) :
    (generate_sample_data n s1).1 = (generate_sample_data n s2).1 := rfl

/-! Session-state model.  st.session_state is a per-session key-value
dictionary; we embed it as an association list from key strings to the
Python values the script stores.  One runScript step models one full
top-to-bottom execution of the script body: initialisation (lines 49-54),
the sidebar (lines 93-126, including the Reset Session button whose
st.rerun aborts the run), the counter increment (line 129), the
session-state effects of the selected page branch (only the Advanced
Features branch has any: lines 667-798), and the footer (line 880).
Rendering itself has no session effect and is modelled separately. -/

/-- A value stored in the session dictionary. -/
inductive PyVal where
  | none
  | int (n : Nat)
  | str (s : String)
  | strList (xs : List String)
deriving DecidableEq

/-- The session dictionary: keys with their stored values. -/
abbrev SessionState : Type := List (String × PyVal)

/-- Look a key up. -/
def getKey (k : String) : SessionState → Option PyVal
  | [] => Option.none
  | (k2, v) :: rest => if k2 = k then some v else getKey k rest

/-- Key-present test. -/
def hasKey (k : String) (s : SessionState) : Bool :=
  (getKey k s).isSome

/-- Store a value under a key: replace in place when present, else append. -/
def setKey (k : String) (v : PyVal) : SessionState → SessionState
  | [] => [(k, v)]
  | (k2, v2) :: rest => if k2 = k then (k2, v) :: rest else (k2, v2) :: setKey k v rest

/-- Read a stored value as a Python int (the script only ever applies
integer operations to keys it stored integers under). -/
def asInt (v : Option PyVal) : Nat :=
  match v with
  | some (PyVal.int n) => n
  | _ => 0

/-- Read a stored value as a Python list of strings. -/
def asStrList (v : Option PyVal) : List String :=
  match v with
  | some (PyVal.strList xs) => xs
  | _ => []

/-- The eight pages of the sidebar radio control (src/app.py lines 98-103). -/
inductive Page where
  | overview
  | textElements
  | dataDisplay
  | inputWidgets
  | mediaElements
  | layouts
  | charts
  | advancedFeatures
deriving DecidableEq

/-- The interaction inputs of one rerun: the sidebar controls and the
states of the buttons with session-state effects. -/
structure Inputs where
  page : Page
  dataRows : Nat
  resetPressed : Bool
  addMessagePressed : Bool
  clearMessagesPressed : Bool
  stopDemoChecked : Bool
  stopHerePressed : Bool
  rerunAppPressed : Bool
  fragmentButtonPressed : Bool
deriving DecidableEq

/-- What one run reports: whether the script body ran to its end (false
when st.rerun or st.stop aborted it), the value the sidebar Session Views
metric displayed (line 116), and the value the footer caption displayed
when it was reached (line 880). -/
structure RunOutput where
  completed : Bool
  sidebarViews : Nat
  footerViews : Option Nat
deriving DecidableEq

/-- Store a default under a key only when the key is absent, the
`if key not in st.session_state` idiom of the script. -/
def initKey (k : String) (v : PyVal) (s : SessionState) : SessionState :=
  if hasKey k s then s else setKey k v s

/-- Session-state initialisation, src/app.py lines 49-54: each of the
three keys is stored only when absent,  in source order counter,
data_cache, user_name. -/
def initSession (s : SessionState) : SessionState :=
  initKey "user_name" (PyVal.str "") (initKey "data_cache" PyVal.none
    (initKey "counter" (PyVal.int 0) s))

/-- One full rerun of the script body, returning the session state it
leaves behind and the run report. -/
def runScript (s : SessionState) (i : Inputs) : SessionState × RunOutput :=
  let s1 := initSession s
  let views := asInt (getKey "counter" s1)
  if i.resetPressed then
    (setKey "counter" (PyVal.int 0) s1,
     { completed := false, sidebarViews := views, footerViews := Option.none })
  else
    let s2 := setKey "counter" (PyVal.int (views + 1)) s1
    if i.page = Page.advancedFeatures then
      let s3 := initKey "messages" (PyVal.strList []) s2
      let m0 := asStrList (getKey "messages" s3)
      let s4 :=
        if i.addMessagePressed then
          setKey "messages" (PyVal.strList (m0 ++ ["Message " ++ toString (m0.length + 1)])) s3
        else s3
      let s5 := if i.clearMessagesPressed then setKey "messages" (PyVal.strList []) s4 else s4
      if i.stopDemoChecked && i.stopHerePressed then
        (s5, { completed := false, sidebarViews := views, footerViews := Option.none })
      else if i.rerunAppPressed then
        (s5, { completed := false, sidebarViews := views, footerViews := Option.none })
      else
        let s6 := initKey "fragment_count" (PyVal.int 0) s5
        let fc := asInt (getKey "fragment_count" s6)
        let s7 := if i.fragmentButtonPressed then setKey "fragment_count" (PyVal.int (fc + 1)) s6 else s6
        (s7, { completed := true, sidebarViews := views, footerViews := some (views + 1) })
    else
      (s2, { completed := true, sidebarViews := views, footerViews := some (views + 1) })

/-- Session states the script can reach: the fresh empty session and
everything a rerun produces from a reachable state. -/
inductive Reachable : SessionState → Prop where
  | init : Reachable []
  | step (s : SessionState) (i : Inputs) : Reachable s → Reachable (runScript s i).1

/-- The keys stored in the session dictionary. -/
def storedKeys (s : SessionState) : List String :=
  s.map Prod.fst

/-- The five keys the script ever stores. -/
def sessionKeyWhitelist : List String :=
  ["counter", "data_cache", "user_name", "messages", "fragment_count"]

/-! Lemmas about the session dictionary operations. -/

/-- Looking up the key just stored yields the stored value. -/
theorem getKey_setKey_self (k : String) (v : PyVal) (s : SessionState) :
    getKey k (setKey k v s) = some v := by
  induction s with
  | nil => simp [setKey, getKey]
  | cons p rest ih =>
    by_cases h : p.1 = k
    · simp [setKey, getKey, h]
    · simpa [setKey, getKey, h] using ih

/-- Storing under one key leaves lookups of other keys unchanged. -/
theorem getKey_setKey_ne (k k2 : String) (v : PyVal) (s : SessionState) (h : k2 ≠ k) :
    getKey k2 (setKey k v s) = getKey k2 s := by
  have h2 : ¬ k = k2 := fun he => h he.symm
  induction s with
  | nil => simp [setKey, getKey, h2]
  | cons p rest ih =>
    by_cases hp : p.1 = k
    · subst hp
      simp [setKey, getKey, h2]
    · simp only [setKey, if_neg hp]
      by_cases hp2 : p.1 = k2
      · simp [getKey, hp2]
      · simpa [getKey, hp2] using ih

/-- The key just stored is present. -/
theorem hasKey_setKey_self (k : String) (v : PyVal) (s : SessionState) :
    hasKey k (setKey k v s) = true := by
  simp [hasKey, getKey_setKey_self]

/-- Storing under one key leaves presence of other keys unchanged. -/
theorem hasKey_setKey_ne (k k2 : String) (v : PyVal) (s : SessionState) (h : k2 ≠ k) :
    hasKey k2 (setKey k v s) = hasKey k2 s := by
  simp [hasKey, getKey_setKey_ne _ _ _ _ h]

/-- A key present after a store is the stored key or was already present. -/
theorem mem_storedKeys_setKey (k k2 : String) (v : PyVal) (s : SessionState)
    (h : k2 ∈ storedKeys (setKey k v s)) : k2 = k ∨ k2 ∈ storedKeys s := by
  induction s with
  | nil => simpa [setKey, storedKeys] using h
  | cons p rest ih =>
    by_cases hp : p.1 = k
    · simp [setKey, storedKeys, hp] at h ⊢
      tauto
    · simp only [setKey, if_neg hp] at h
      simp [storedKeys] at h ⊢
      rcases h with h | h
      · tauto
      · rcases ih (by simpa [storedKeys] using h) with h2 | h2
        · tauto
        · simp [storedKeys] at h2
          tauto

/-- Looking up the key an initKey conditionally stored yields the old
value when one was present, else the default. -/
theorem getKey_initKey_self (k : String) (v : PyVal) (s : SessionState) :
    getKey k (initKey k v s) = some ((getKey k s).getD v) := by
  unfold initKey hasKey
  rcases h : getKey k s with _ | w
  · simp [h, getKey_setKey_self]
  · simp [h]

/-- initKey leaves lookups of other keys unchanged. -/
theorem getKey_initKey_ne (k k2 : String) (v : PyVal) (s : SessionState) (h : k2 ≠ k) :
    getKey k2 (initKey k v s) = getKey k2 s := by
  unfold initKey
  split
  · rfl
  · exact getKey_setKey_ne _ _ _ _ h

/-- The initKey key is present afterwards. -/
theorem hasKey_initKey_self (k : String) (v : PyVal) (s : SessionState) :
    hasKey k (initKey k v s) = true := by
  simp [hasKey, getKey_initKey_self]

/-- initKey leaves presence of other keys unchanged. -/
theorem hasKey_initKey_ne (k k2 : String) (v : PyVal) (s : SessionState) (h : k2 ≠ k) :
    hasKey k2 (initKey k v s) = hasKey k2 s := by
  simp [hasKey, getKey_initKey_ne _ _ _ _ h]

/-- A key present after initKey is its key or was already present. -/
theorem mem_storedKeys_initKey (k k2 : String) (v : PyVal) (s : SessionState)
    (h : k2 ∈ storedKeys (initKey k v s)) : k2 = k ∨ k2 ∈ storedKeys s := by
  unfold initKey at h
  split at h
  · exact Or.inr h
  · exact mem_storedKeys_setKey _ _ _ _ h

/-- Presence in the tail of a session list whose head has another key. -/
theorem hasKey_cons_of_ne (k : String) (p : String × PyVal) (rest : SessionState)
    (h : hasKey k (p :: rest) = true) (hne : p.1 ≠ k) : hasKey k rest = true := by
  simpa [hasKey, getKey, hne] using h

/-- Stores under distinct keys commute when the first key is present (a
present key is replaced in place, so appends elsewhere do not reorder). -/
theorem setKey_setKey_comm (k1 k2 : String) (v1 v2 : PyVal) (s : SessionState)
    (h : hasKey k1 s = true) (hne : k1 ≠ k2) :
    setKey k2 v2 (setKey k1 v1 s) = setKey k1 v1 (setKey k2 v2 s) := by
  have hne2 : ¬ (k2 = k1) := fun he => hne he.symm
  have hne1 : ¬ (k1 = k2) := hne
  induction s with
  | nil => simp [hasKey, getKey] at h
  | cons p rest ih =>
    by_cases h1 : p.1 = k1
    · simp [setKey, h1, hne1, hne2]
    · by_cases h2 : p.1 = k2
      · simp [setKey, h1, h2, hne1, hne2]
      · have hrest := hasKey_cons_of_ne k1 p rest h h1
        simp [setKey, h1, h2, ih hrest]

/-- Counter value after session initialisation. -/
theorem getKey_initSession_counter (s : SessionState) :
    getKey "counter" (initSession s) = some ((getKey "counter" s).getD (PyVal.int 0)) := by
  unfold initSession
  rw [getKey_initKey_ne _ _ _ _ (by decide), getKey_initKey_ne _ _ _ _ (by decide),
    getKey_initKey_self]

/-- data_cache value after session initialisation. -/
theorem getKey_initSession_data_cache (s : SessionState) :
    getKey "data_cache" (initSession s) = some ((getKey "data_cache" s).getD PyVal.none) := by
  unfold initSession
  rw [getKey_initKey_ne _ _ _ _ (by decide), getKey_initKey_self,
    getKey_initKey_ne _ _ _ _ (by decide)]

/-- user_name value after session initialisation. -/
theorem getKey_initSession_user_name (s : SessionState) :
    getKey "user_name" (initSession s) = some ((getKey "user_name" s).getD (PyVal.str "")) := by
  unfold initSession
  rw [getKey_initKey_self, getKey_initKey_ne _ _ _ _ (by decide),
    getKey_initKey_ne _ _ _ _ (by decide)]

/-- Session initialisation leaves every other key unchanged. -/
theorem getKey_initSession_other (k : String) (s : SessionState)
    (h1 : k ≠ "counter") (h2 : k ≠ "data_cache") (h3 : k ≠ "user_name") :
    getKey k (initSession s) = getKey k s := by
  unfold initSession
  rw [getKey_initKey_ne _ _ _ _ h3, getKey_initKey_ne _ _ _ _ h2, getKey_initKey_ne _ _ _ _ h1]

/-- The initialised counter reads back as the same integer the incoming
state held, or 0 when the key was absent. -/
theorem asInt_getKey_counter_initSession (s : SessionState) :
    asInt (getKey "counter" (initSession s)) = asInt (getKey "counter" s) := by
  rw [getKey_initSession_counter]
  rcases getKey "counter" s with _ | w <;> simp [asInt]

/-! Behaviour of one rerun, key by key. -/

/-- The sidebar Session Views metric displays the post-initialisation,
pre-increment counter value. -/
theorem runScript_sidebarViews (s : SessionState) (i : Inputs) :
    (runScript s i).2.sidebarViews = asInt (getKey "counter" (initSession s)) := by
  simp only [runScript]
  split
  · rfl
  · split
    · split
      · rfl
      · split
        · rfl
        · rfl
    · rfl

/-- A completed run shows one more than the sidebar value in the footer. -/
theorem runScript_footer_completed (s : SessionState) (i : Inputs)
    (h : (runScript s i).2.completed = true) :
    (runScript s i).2.footerViews = some ((runScript s i).2.sidebarViews + 1) := by
  by_cases hr : i.resetPressed = true
  · exfalso; simp [runScript, hr] at h
  · rw [Bool.not_eq_true] at hr
    by_cases hp : i.page = Page.advancedFeatures
    · by_cases hst : (i.stopDemoChecked && i.stopHerePressed) = true
      · exfalso; simp [runScript, hr, hp, hst] at h
      · rw [Bool.not_eq_true] at hst
        by_cases hre : i.rerunAppPressed = true
        · exfalso; simp [runScript, hr, hp, hst, hre] at h
        · rw [Bool.not_eq_true] at hre
          simp [runScript, hr, hp, hst, hre]
    · simp [runScript, hr, hp]

/-- Without a Reset press, a run stores the incremented counter. -/
theorem runScript_counter_noreset (s : SessionState) (i : Inputs)
    (hr : i.resetPressed = false) :
    getKey "counter" (runScript s i).1 =
      some (PyVal.int (asInt (getKey "counter" s) + 1)) := by
  by_cases hp : i.page = Page.advancedFeatures
  · by_cases hst : (i.stopDemoChecked && i.stopHerePressed) = true
    · simp [runScript, hr, hp, hst, getKey_setKey_ne, getKey_initKey_ne, getKey_setKey_self,
        apply_ite (getKey "counter"), asInt_getKey_counter_initSession]
    · rw [Bool.not_eq_true] at hst
      by_cases hre : i.rerunAppPressed = true
      · simp [runScript, hr, hp, hst, hre, getKey_setKey_ne, getKey_initKey_ne,
          getKey_setKey_self, apply_ite (getKey "counter"), asInt_getKey_counter_initSession]
      · rw [Bool.not_eq_true] at hre
        simp [runScript, hr, hp, hst, hre, getKey_setKey_ne, getKey_initKey_ne,
          getKey_setKey_self, apply_ite (getKey "counter"), asInt_getKey_counter_initSession]
  · simp [runScript, hr, hp, getKey_setKey_self, asInt_getKey_counter_initSession]

/-- A run with Reset pressed zeroes the counter and aborts (st.rerun). -/
theorem runScript_counter_reset (s : SessionState) (i : Inputs)
    (hr : i.resetPressed = true) :
    getKey "counter" (runScript s i).1 = some (PyVal.int 0) ∧
    (runScript s i).2.completed = false := by
  constructor
  · simp [runScript, hr, getKey_setKey_self]
  · simp [runScript, hr]

/-- Every run stores data_cache exactly once, at initialisation, to the
Python None, and afterwards never changes it. -/
theorem runScript_data_cache (s : SessionState) (i : Inputs) :
    getKey "data_cache" (runScript s i).1 =
      some ((getKey "data_cache" s).getD PyVal.none) := by
  have hbase := getKey_initSession_data_cache s
  by_cases hr : i.resetPressed = true
  · simp [runScript, hr, getKey_setKey_ne, hbase]
  · rw [Bool.not_eq_true] at hr
    by_cases hp : i.page = Page.advancedFeatures
    · by_cases hst : (i.stopDemoChecked && i.stopHerePressed) = true
      · simp [runScript, hr, hp, hst, getKey_setKey_ne, getKey_initKey_ne,
          apply_ite (getKey "data_cache"), hbase]
      · rw [Bool.not_eq_true] at hst
        by_cases hre : i.rerunAppPressed = true
        · simp [runScript, hr, hp, hst, hre, getKey_setKey_ne, getKey_initKey_ne,
            apply_ite (getKey "data_cache"), hbase]
        · rw [Bool.not_eq_true] at hre
          simp [runScript, hr, hp, hst, hre, getKey_setKey_ne, getKey_initKey_ne,
            apply_ite (getKey "data_cache"), hbase]
    · simp [runScript, hr, hp, getKey_setKey_ne, hbase]

/-- Every run stores user_name exactly once, at initialisation, to the
empty string, and afterwards never changes it. -/
theorem runScript_user_name (s : SessionState) (i : Inputs) :
    getKey "user_name" (runScript s i).1 =
      some ((getKey "user_name" s).getD (PyVal.str "")) := by
  have hbase := getKey_initSession_user_name s
  by_cases hr : i.resetPressed = true
  · simp [runScript, hr, getKey_setKey_ne, hbase]
  · rw [Bool.not_eq_true] at hr
    by_cases hp : i.page = Page.advancedFeatures
    · by_cases hst : (i.stopDemoChecked && i.stopHerePressed) = true
      · simp [runScript, hr, hp, hst, getKey_setKey_ne, getKey_initKey_ne,
          apply_ite (getKey "user_name"), hbase]
      · rw [Bool.not_eq_true] at hst
        by_cases hre : i.rerunAppPressed = true
        · simp [runScript, hr, hp, hst, hre, getKey_setKey_ne, getKey_initKey_ne,
            apply_ite (getKey "user_name"), hbase]
        · rw [Bool.not_eq_true] at hre
          simp [runScript, hr, hp, hst, hre, getKey_setKey_ne, getKey_initKey_ne,
            apply_ite (getKey "user_name"), hbase]
    · simp [runScript, hr, hp, getKey_setKey_ne, hbase]

/-- The observable run report depends on the incoming session only
through the counter entry. -/
theorem runScript_output_eq (s s2 : SessionState) (i : Inputs)
    (h : getKey "counter" s = getKey "counter" s2) :
    (runScript s i).2 = (runScript s2 i).2 := by
  have hv : asInt (getKey "counter" (initSession s)) =
      asInt (getKey "counter" (initSession s2)) := by
    rw [asInt_getKey_counter_initSession, asInt_getKey_counter_initSession, h]
  by_cases hr : i.resetPressed = true
  · simp [runScript, hr, hv]
  · rw [Bool.not_eq_true] at hr
    by_cases hp : i.page = Page.advancedFeatures
    · by_cases hst : (i.stopDemoChecked && i.stopHerePressed) = true
      · simp [runScript, hr, hp, hst, hv]
      · rw [Bool.not_eq_true] at hst
        by_cases hre : i.rerunAppPressed = true
        · simp [runScript, hr, hp, hst, hre, hv]
        · rw [Bool.not_eq_true] at hre
          simp [runScript, hr, hp, hst, hre, hv]
    · simp [runScript, hr, hp, hv]

/-- The messages list the Advanced Features page works with is the one of
the incoming session (initialisation and the counter store do not touch
it). -/
theorem asStrList_messages_init (s : SessionState) (v : PyVal) :
    asStrList (getKey "messages" (initKey "messages" (PyVal.strList [])
      (setKey "counter" v (initSession s)))) = asStrList (getKey "messages" s) := by
  rw [getKey_initKey_self, getKey_setKey_ne _ _ _ _ (by decide),
    getKey_initSession_other _ _ (by decide) (by decide) (by decide)]
  rcases getKey "messages" s with _ | w <;> simp [asStrList]

/-- The fragment-counter block commutes with a messages store: running it
after a messages store yields the messages store applied to its result. -/
theorem frag_chain_comm (t : SessionState) (v : PyVal) (b : Bool)
    (hmsg : hasKey "messages" t = true) :
    (if b then
        setKey "fragment_count"
          (PyVal.int (asInt (getKey "fragment_count"
            (initKey "fragment_count" (PyVal.int 0) (setKey "messages" v t))) + 1))
          (initKey "fragment_count" (PyVal.int 0) (setKey "messages" v t))
      else initKey "fragment_count" (PyVal.int 0) (setKey "messages" v t)) =
    setKey "messages" v
      (if b then
        setKey "fragment_count"
          (PyVal.int (asInt (getKey "fragment_count"
            (initKey "fragment_count" (PyVal.int 0) t)) + 1))
          (initKey "fragment_count" (PyVal.int 0) t)
      else initKey "fragment_count" (PyVal.int 0) t) := by
  have hne : "messages" ≠ "fragment_count" := by decide
  by_cases hf : hasKey "fragment_count" t = true
  · have e1 : initKey "fragment_count" (PyVal.int 0) (setKey "messages" v t) =
        setKey "messages" v t := by
      simp [initKey, hasKey_setKey_ne, hf]
    have e2 : initKey "fragment_count" (PyVal.int 0) t = t := by
      simp [initKey, hf]
    rw [e1, e2]
    cases b
    · simp
    · simp only [if_pos rfl]
      rw [getKey_setKey_ne _ _ _ _ (by decide)]
      exact setKey_setKey_comm _ _ _ _ _ hmsg hne
  · rw [Bool.not_eq_true] at hf
    have e1 : initKey "fragment_count" (PyVal.int 0) (setKey "messages" v t) =
        setKey "messages" v (setKey "fragment_count" (PyVal.int 0) t) := by
      rw [initKey, hasKey_setKey_ne "messages" "fragment_count" v t (by decide), hf]
      simp only [Bool.false_eq_true, if_false]
      exact setKey_setKey_comm _ _ _ _ _ hmsg hne
    have e2 : initKey "fragment_count" (PyVal.int 0) t =
        setKey "fragment_count" (PyVal.int 0) t := by
      simp [initKey, hf]
    rw [e1, e2]
    have hmsg2 : hasKey "messages" (setKey "fragment_count" (PyVal.int 0) t) = true := by
      rw [hasKey_setKey_ne _ _ _ _ (by decide)]; exact hmsg
    cases b
    · simp
    · rw [getKey_setKey_ne _ _ _ _ (by decide), getKey_setKey_self,
        setKey_setKey_comm _ _ _ _ _ hmsg2 hne]
      simp

/-- With neither message button pressed, an Advanced Features run stores
the incoming messages list, defaulting a missing one to the empty list. -/
theorem runScript_messages_noButtons (s : SessionState) (i : Inputs)
    (hp : i.page = Page.advancedFeatures) (hr : i.resetPressed = false)
    (hadd : i.addMessagePressed = false) (hclear : i.clearMessagesPressed = false) :
    getKey "messages" (runScript s i).1 =
      some ((getKey "messages" s).getD (PyVal.strList [])) := by
  have hbase : getKey "messages" (initSession s) = getKey "messages" s :=
    getKey_initSession_other _ _ (by decide) (by decide) (by decide)
  by_cases hst : (i.stopDemoChecked && i.stopHerePressed) = true
  · simp [runScript, hp, hr, hadd, hclear, hst, getKey_setKey_ne, getKey_initKey_self, hbase]
  · rw [Bool.not_eq_true] at hst
    by_cases hre : i.rerunAppPressed = true
    · simp [runScript, hp, hr, hadd, hclear, hst, hre, getKey_setKey_ne,
        getKey_initKey_self, hbase]
    · rw [Bool.not_eq_true] at hre
      simp [runScript, hp, hr, hadd, hclear, hst, hre, apply_ite (getKey "messages"),
        getKey_setKey_ne, getKey_initKey_ne, getKey_initKey_self, hbase]

/-- An Add Message press appends exactly the one computed string. -/
theorem runScript_messages_add (s : SessionState) (i : Inputs)
    (hp : i.page = Page.advancedFeatures) (hr : i.resetPressed = false)
    (hadd : i.addMessagePressed = true) (hclear : i.clearMessagesPressed = false) :
    getKey "messages" (runScript s i).1 =
      some (PyVal.strList (asStrList (getKey "messages" s) ++
        ["Message " ++ toString ((asStrList (getKey "messages" s)).length + 1)])) := by
  by_cases hst : (i.stopDemoChecked && i.stopHerePressed) = true
  · simp [runScript, hp, hr, hadd, hclear, hst, getKey_setKey_ne, getKey_setKey_self,
      asStrList_messages_init]
  · rw [Bool.not_eq_true] at hst
    by_cases hre : i.rerunAppPressed = true
    · simp [runScript, hp, hr, hadd, hclear, hst, hre, getKey_setKey_ne, getKey_setKey_self,
        asStrList_messages_init]
    · rw [Bool.not_eq_true] at hre
      simp [runScript, hp, hr, hadd, hclear, hst, hre, apply_ite (getKey "messages"),
        getKey_setKey_ne, getKey_initKey_ne, getKey_setKey_self, asStrList_messages_init]

/-- A Clear Messages press resets the list to empty. -/
theorem runScript_messages_clear (s : SessionState) (i : Inputs)
    (hp : i.page = Page.advancedFeatures) (hr : i.resetPressed = false)
    (hclear : i.clearMessagesPressed = true) :
    getKey "messages" (runScript s i).1 = some (PyVal.strList []) := by
  by_cases hst : (i.stopDemoChecked && i.stopHerePressed) = true
  · simp [runScript, hp, hr, hclear, hst, getKey_setKey_ne, getKey_setKey_self]
  · rw [Bool.not_eq_true] at hst
    by_cases hre : i.rerunAppPressed = true
    · simp [runScript, hp, hr, hclear, hst, hre, getKey_setKey_ne, getKey_setKey_self]
    · rw [Bool.not_eq_true] at hre
      simp [runScript, hp, hr, hclear, hst, hre, apply_ite (getKey "messages"),
        getKey_setKey_ne, getKey_initKey_ne, getKey_setKey_self]

/-- Pressing Add Message changes the resulting session exactly by the one
messages store: the rest of the run is untouched. -/
theorem runScript_add_frame (s : SessionState) (i : Inputs)
    (hp : i.page = Page.advancedFeatures) (hr : i.resetPressed = false)
    (hclear : i.clearMessagesPressed = false) :
    (runScript s { i with addMessagePressed := true }).1 =
      setKey "messages"
        (PyVal.strList (asStrList (getKey "messages" s) ++
          ["Message " ++ toString ((asStrList (getKey "messages" s)).length + 1)]))
        (runScript s { i with addMessagePressed := false }).1 := by
  by_cases hst : (i.stopDemoChecked && i.stopHerePressed) = true
  · simp [runScript, hp, hr, hclear, hst, asStrList_messages_init]
  · rw [Bool.not_eq_true] at hst
    by_cases hre : i.rerunAppPressed = true
    · simp [runScript, hp, hr, hclear, hst, hre, asStrList_messages_init]
    · rw [Bool.not_eq_true] at hre
      simp only [runScript, hp, hr, hclear, hst, hre, asStrList_messages_init,
        Bool.false_eq_true, if_false, if_pos rfl, Bool.false_and, Bool.and_self]
      exact frag_chain_comm _ _ _ (hasKey_initKey_self _ _ _)

/-! Which keys a run can create. -/

/-- States built from a base session by stores under whitelisted keys. -/
inductive BuiltFrom (s : SessionState) : SessionState → Prop where
  | base : BuiltFrom s s
  | set (k : String) (v : PyVal) (t : SessionState) :
      k ∈ sessionKeyWhitelist → BuiltFrom s t → BuiltFrom s (setKey k v t)
  | init (k : String) (v : PyVal) (t : SessionState) :
      k ∈ sessionKeyWhitelist → BuiltFrom s t → BuiltFrom s (initKey k v t)

/-- BuiltFrom is preserved under a conditional. -/
theorem builtFrom_ite (s : SessionState) (c : Prop) [Decidable c] (a b : SessionState)
    (ha : BuiltFrom s a) (hb : BuiltFrom s b) : BuiltFrom s (if c then a else b) := by
  split
  · exact ha
  · exact hb

/-- BuiltFrom states add only whitelisted keys. -/
theorem mem_storedKeys_of_builtFrom (s t : SessionState) (k : String)
    (h : BuiltFrom s t) (hk : k ∈ storedKeys t) :
    k ∈ sessionKeyWhitelist ∨ k ∈ storedKeys s := by
  induction h with
  | base => exact Or.inr hk
  | set k2 v t2 hmem ht ih =>
    rcases mem_storedKeys_setKey _ _ _ _ hk with rfl | h2
    · exact Or.inl hmem
    · exact ih h2
  | init k2 v t2 hmem ht ih =>
    rcases mem_storedKeys_initKey _ _ _ _ hk with rfl | h2
    · exact Or.inl hmem
    · exact ih h2

/-- Every run builds its result from the incoming session by stores under
the five whitelisted keys alone. -/
theorem builtFrom_runScript (s : SessionState) (i : Inputs) :
    BuiltFrom s (runScript s i).1 := by
  by_cases hr : i.resetPressed = true
  · simp only [runScript, hr, if_pos rfl]
    repeat'
      first
      | exact BuiltFrom.base
      | apply builtFrom_ite
      | apply BuiltFrom.set
      | apply BuiltFrom.init
      | simp [sessionKeyWhitelist]
  · rw [Bool.not_eq_true] at hr
    by_cases hp : i.page = Page.advancedFeatures
    · by_cases hst : (i.stopDemoChecked && i.stopHerePressed) = true
      · simp only [runScript, hr, hp, hst, Bool.false_eq_true, if_false, if_pos rfl]
        repeat'
          first
          | exact BuiltFrom.base
          | apply builtFrom_ite
          | apply BuiltFrom.set
          | apply BuiltFrom.init
          | simp [sessionKeyWhitelist]
      · rw [Bool.not_eq_true] at hst
        by_cases hre : i.rerunAppPressed = true
        · simp only [runScript, hr, hp, hst, hre, Bool.false_eq_true, if_false, if_pos rfl]
          repeat'
            first
            | exact BuiltFrom.base
            | apply builtFrom_ite
            | apply BuiltFrom.set
            | apply BuiltFrom.init
            | simp [sessionKeyWhitelist]
        · rw [Bool.not_eq_true] at hre
          simp only [runScript, hr, hp, hst, hre, Bool.false_eq_true, if_false, if_pos rfl]
          repeat'
            first
            | exact BuiltFrom.base
            | apply builtFrom_ite
            | apply BuiltFrom.set
            | apply BuiltFrom.init
            | simp [sessionKeyWhitelist]
    · simp only [runScript, hr, hp, Bool.false_eq_true, if_false]
      repeat'
        first
        | exact BuiltFrom.base
        | apply builtFrom_ite
        | apply BuiltFrom.set
        | apply BuiltFrom.init
        | simp [sessionKeyWhitelist]

/-! Claim theorems about the session state. -/

/-- A plain visit to the Advanced Features page: no button pressed. -/
def advancedVisit : Inputs :=
  { page := Page.advancedFeatures, dataRows := 1000, resetPressed := false,
    addMessagePressed := false, clearMessagesPressed := false, stopDemoChecked := false,
    stopHerePressed := false, rerunAppPressed := false, fragmentButtonPressed := false }

/-- C3: on every completed rerun the session view counter ends exactly one
above its value at the start of that rerun (a run aborted by the Reset
button is not completed; st.rerun and st.stop abort after the increment). -/
theorem counter_increments_per_completed_run (s : SessionState) (i : Inputs) (c : Nat)
    (hstart : getKey "counter" s = some (PyVal.int c))
    (hcomp : (runScript s i).2.completed = true) :
    getKey "counter" (runScript s i).1 = some (PyVal.int (c + 1)) := by
  have hr : i.resetPressed = false := by
    by_cases hr : i.resetPressed = true
    · exact absurd hcomp (by simp [(runScript_counter_reset s i hr).2])
    · rwa [Bool.not_eq_true] at hr
  rw [runScript_counter_noreset s i hr]
  simp [hstart, asInt]

/-- Witness for C3: a completed Advanced Features rerun takes the counter
from 3 to 4. -/
theorem counter_increments_witness :
    getKey "counter" [("counter", PyVal.int 3)] = some (PyVal.int 3) ∧
    (runScript [("counter", PyVal.int 3)] advancedVisit).2.completed = true ∧
    getKey "counter" (runScript [("counter", PyVal.int 3)] advancedVisit).1 =
      some (PyVal.int 4) :=
  ⟨by decide, by decide,
   counter_increments_per_completed_run _ advancedVisit 3 (by decide) (by decide)⟩

/-- Counterexample for C5: one reachable rerun of the Advanced Features
page stores the key fragment_count, which is outside the four keys the
claim lists, so the claimed four-key bound on the session record is
false. -/
theorem session_keys_exceed_four :
    Reachable (runScript [] advancedVisit).1 ∧
    "fragment_count" ∈ storedKeys (runScript [] advancedVisit).1 ∧
    "fragment_count" ∉ ["counter", "data_cache", "user_name", "messages"] :=
  ⟨Reachable.step [] advancedVisit Reachable.init, by decide, by decide⟩

/-- C5 as amended: for every reachable session state, the keys the script
stores form a subset of the five keys counter, data_cache, user_name,
messages and fragment_count (the fifth key, stored by the fragment
demo of the Advanced Features page, is missing from the claim). -/
theorem session_keys_whitelist (s : SessionState) (h : Reachable s) :
    ∀ k ∈ storedKeys s, k ∈ sessionKeyWhitelist := by
  induction h with
  | init => intro k hk; simp [storedKeys] at hk
  | step s2 i h2 ih =>
    intro k hk
    rcases mem_storedKeys_of_builtFrom _ _ _ (builtFrom_runScript s2 i) hk with h3 | h3
    · exact h3
    · exact ih k h3

/-- Witness for C5 as amended: the state after one Advanced Features
rerun is reachable and its keys are all whitelisted. -/
theorem session_keys_whitelist_witness :
    Reachable (runScript [] advancedVisit).1 ∧
    (∀ k ∈ storedKeys (runScript [] advancedVisit).1, k ∈ sessionKeyWhitelist) :=
  ⟨Reachable.step [] advancedVisit Reachable.init,
   session_keys_whitelist _ (Reachable.step [] advancedVisit Reachable.init)⟩

/-- The given inputs with neither message button pressed. -/
def withNoMsgButtons (i : Inputs) : Inputs :=
  { i with addMessagePressed := false, clearMessagesPressed := false }

/-- The given inputs with only the Add Message button pressed. -/
def withAddMessage (i : Inputs) : Inputs :=
  { i with addMessagePressed := true, clearMessagesPressed := false }

/-- The given inputs with the Clear Messages button pressed. -/
def withClearMessages (i : Inputs) : Inputs :=
  { i with clearMessagesPressed := true }

/-- The value Add Message stores: the incoming list with the one string
the f-string at src/app.py line 680 builds appended. -/
def addedMessage (s : SessionState) : PyVal :=
  PyVal.strList (asStrList (getKey "messages" s) ++
    ["Message " ++ toString ((asStrList (getKey "messages" s)).length + 1)])

/-- The property C6 states of the message list, for an Advanced Features
rerun from session s: without button presses the list is created empty
(and an existing list is kept); an Add Message press appends exactly one
string and otherwise leaves the resulting session exactly as the run
without the press leaves it; a Clear Messages press empties the list. -/
def messagesSpec (s : SessionState) (i : Inputs) : Prop :=
  getKey "messages" (runScript s (withNoMsgButtons i)).1 =
    some ((getKey "messages" s).getD (PyVal.strList [])) ∧
  getKey "messages" (runScript s (withAddMessage i)).1 = some (addedMessage s) ∧
  (runScript s (withAddMessage i)).1 =
    setKey "messages" (addedMessage s) (runScript s (withNoMsgButtons i)).1 ∧
  getKey "messages" (runScript s (withClearMessages i)).1 = some (PyVal.strList [])

/-- C6: the message list starts empty, grows by exactly one string per
Add Message press - leaving every other session entry exactly as a run
without the press - and resets to empty on Clear Messages. -/
theorem messages_lifecycle (s : SessionState) (i : Inputs)
    (hpage : i.page = Page.advancedFeatures) (hreset : i.resetPressed = false) :
    messagesSpec s i := by
  refine ⟨?_, ?_, ?_, ?_⟩
  · exact runScript_messages_noButtons s _ hpage hreset rfl rfl
  · exact runScript_messages_add s _ hpage hreset rfl rfl
  · exact runScript_add_frame s { i with clearMessagesPressed := false } hpage hreset rfl
  · exact runScript_messages_clear s _ hpage hreset rfl

/-- Witness for C6: the lifecycle property at the fresh session and a
plain Advanced Features visit. -/
theorem messages_lifecycle_witness :
    advancedVisit.page = Page.advancedFeatures ∧ advancedVisit.resetPressed = false ∧
    messagesSpec [] advancedVisit :=
  ⟨by decide, by decide, messages_lifecycle [] advancedVisit (by decide) (by decide)⟩

/-- C9: data_cache and user_name are stored only at initialisation, to
None and the empty string, every rerun leaves their stored values
unchanged, and no run observable depends on them (replacing both values
changes no run report). -/
theorem data_cache_user_name_frozen (s : SessionState) (i : Inputs) :
    getKey "data_cache" (runScript s i).1 = some ((getKey "data_cache" s).getD PyVal.none) ∧
    getKey "user_name" (runScript s i).1 = some ((getKey "user_name" s).getD (PyVal.str "")) ∧
    (∀ v u : PyVal,
      (runScript (setKey "data_cache" v (setKey "user_name" u s)) i).2 = (runScript s i).2) := by
  refine ⟨runScript_data_cache s i, runScript_user_name s i, ?_⟩
  intro v u
  apply runScript_output_eq
  rw [getKey_setKey_ne _ _ _ _ (by decide), getKey_setKey_ne _ _ _ _ (by decide)]

/-- The given inputs with the Reset Session button pressed. -/
def withReset (i : Inputs) : Inputs :=
  { i with resetPressed := true }

/-- The property C10 states: every run (also one Reset aborts) shows the
pre-increment counter in the sidebar metric; a completed run shows the
post-increment value in the footer; a Reset press leaves the counter at
0, so the following run shows sidebar 0 and footer 1, exactly as the
first run of a session does from the fresh empty session. -/
def sidebarFooterSpec (s : SessionState) (i : Inputs) : Prop :=
  (∀ i2 : Inputs, (runScript s i2).2.sidebarViews = asInt (getKey "counter" s)) ∧
  (runScript s i).2.footerViews = some (asInt (getKey "counter" s) + 1) ∧
  (∀ i2 : Inputs, getKey "counter" (runScript s (withReset i2)).1 = some (PyVal.int 0)) ∧
  asInt (getKey "counter" ([] : SessionState)) = 0

/-- C10: the sidebar Session Views metric always displays the counter
value from before the increment of line 129, the footer displays the
post-increment value, and after Reset (as on a first run) those are 0
and 1. -/
theorem sidebar_pre_footer_post (s : SessionState) (i : Inputs)
    (hcomp : (runScript s i).2.completed = true) :
    sidebarFooterSpec s i := by
  refine ⟨?_, ?_, ?_, rfl⟩
  · intro i2
    rw [runScript_sidebarViews, asInt_getKey_counter_initSession]
  · rw [runScript_footer_completed s i hcomp, runScript_sidebarViews,
      asInt_getKey_counter_initSession]
  · intro i2
    exact (runScript_counter_reset s _ rfl).1

/-- Witness for C10: at the fresh session the sidebar shows 0 and the
footer shows 1. -/
theorem sidebar_pre_footer_post_witness :
    (runScript [] advancedVisit).2.completed = true ∧ sidebarFooterSpec [] advancedVisit :=
  ⟨by decide, sidebar_pre_footer_post [] advancedVisit (by decide)⟩

/-! Rendering model for claims C7 and C8.  Each page branch is a fixed
sequence of framework widget calls; the only operations in any branch
that can raise for an admissible slider value are the two
DataFrame.sample calls (src/app.py line 480 samples 100 rows on the
Media Elements page, line 619 samples 200 rows for the 3D scatter of the
Charts page): pandas raises ValueError when the requested sample exceeds
the row count and replace is False.  The widget lists name the blocks of
each branch; the CSV download button of the Input Widgets page (line
357) carries its payload. -/

/-- A rendered widget: a named block, or the download button with its
data payload. -/
inductive Widget where
  | el (kind : String)
  | downloadButton (fileName : String) (data : String)
deriving DecidableEq

/-- String form of one cell, for CSV serialization. -/
def cellToString : Cell → String
  | Cell.str s => s
  | Cell.int n => toString n
  | Cell.rat q => toString q
  | Cell.date d => toString d

/-- One CSV data line: the row cells of every column, comma separated. -/
def csvRow (df : DataFrame) (idx : Nat) : String :=
  String.intercalate "," (df.map (fun c => cellToString (c.2.getD idx (Cell.str ""))))

/-- Model of DataFrame.to_csv(index := False): the header line of column
names followed by one line per row, no index column. -/
def toCsv (df : DataFrame) : String :=
  String.intercalate "," (columnNames df) ++ "\n" ++
    String.intercalate "\n" ((List.range (nRows df)).map (csvRow df)) ++ "\n"

/-- Model of DataFrame.sample(k) with replace := False: pandas raises
ValueError when k exceeds the population; which k rows are chosen does
not matter to any claim, so the model keeps the first k. -/
def dfSample (k : Nat) (df : DataFrame) : Except String DataFrame :=
  if k ≤ nRows df then Except.ok (df.map (fun c => (c.1, c.2.take k)))
  else Except.error "Cannot take a larger sample than population when replace is False"

/-- One page branch executed with the given slider row count: the widgets
it renders, or the message of the exception it raises. -/
def renderPage (p : Page) (dataRows : Nat) (s0 : Nat) : Except String (List Widget) :=
  let df := (generate_sample_data dataRows s0).1
  match p with
  | Page.overview =>
      Except.ok [Widget.el "metrics", Widget.el "welcome", Widget.el "preview",
        Widget.el "pie", Widget.el "progress"]
  | Page.textElements =>
      Except.ok [Widget.el "headers", Widget.el "markdown", Widget.el "code",
        Widget.el "latex", Widget.el "write", Widget.el "status", Widget.el "exceptionDemo"]
  | Page.dataDisplay =>
      Except.ok [Widget.el "dataframe", Widget.el "table", Widget.el "metrics",
        Widget.el "json", Widget.el "dataEditor"]
  | Page.inputWidgets =>
      Except.ok [Widget.el "buttons", Widget.downloadButton "data.csv" (toCsv df),
        Widget.el "textInputs", Widget.el "selections", Widget.el "sliders",
        Widget.el "uploader", Widget.el "camera", Widget.el "colorPicker"]
  | Page.mediaElements =>
      match dfSample 100 df with
      | Except.error e => Except.error e
      | Except.ok _ =>
          Except.ok [Widget.el "images", Widget.el "logo", Widget.el "audio",
            Widget.el "video", Widget.el "scatter"]
  | Page.layouts =>
      Except.ok [Widget.el "columns", Widget.el "tabs", Widget.el "expanders",
        Widget.el "container", Widget.el "placeholder", Widget.el "popover",
        Widget.el "dialog"]
  | Page.charts =>
      match dfSample 200 df with
      | Except.error e => Except.error e
      | Except.ok _ =>
          Except.ok [Widget.el "nativeCharts", Widget.el "plotly", Widget.el "scatter3d",
            Widget.el "maps", Widget.el "heatmap", Widget.el "vegaLite"]
  | Page.advancedFeatures =>
      Except.ok [Widget.el "sessionState", Widget.el "caching", Widget.el "form",
        Widget.el "loading", Widget.el "toast", Widget.el "celebrations",
        Widget.el "execControl", Widget.el "fragment", Widget.el "echo",
        Widget.el "chat"]

/-- True when the page branch executes to completion without raising. -/
def rendersWithoutRaising (p : Page) (dataRows : Nat) (s0 : Nat) : Bool :=
  match renderPage p dataRows s0 with
  | Except.ok _ => true
  | Except.error _ => false

/-- The payloads of the download buttons among rendered widgets. -/
def downloadPayloads (ws : List Widget) : List String :=
  ws.filterMap (fun w => match w with
    | Widget.downloadButton _ d => some d
    | _ => Option.none)

/-- The values the Data Rows slider admits (min 100, max 2000, step 100). -/
def admissibleRows (n : Nat) : Prop := 100 ≤ n ∧ n ≤ 2000 ∧ n % 100 = 0

instance (n : Nat) : Decidable (admissibleRows n) := by
  unfold admissibleRows
  infer_instance

set_option maxRecDepth 8000 in
/-- The sample dataset has as many rows as requested. -/
theorem nRows_generate_sample_data (n s0 : Nat) :
    nRows (generate_sample_data n s0).1 = n := by
  simp [generate_sample_data, nRows, dateRangeHourly]

/-- C7: for every selected row count, the Input Widgets page renders, and
the one download payload it offers is exactly the direct CSV
serialization of the generated sample table, with no transformation. -/
theorem csv_download_direct (n s0 : Nat) (h : admissibleRows n) :
    ∃ ws, renderPage Page.inputWidgets n s0 = Except.ok ws ∧
      downloadPayloads ws = [toCsv (generate_sample_data n s0).1] := by
  refine ⟨_, rfl, ?_⟩
  simp [downloadPayloads]

/-- Witness for C7: the serialization property at row count 100. -/
theorem csv_download_direct_witness :
    admissibleRows 100 ∧
    ∃ ws, renderPage Page.inputWidgets 100 0 = Except.ok ws ∧
      downloadPayloads ws = [toCsv (generate_sample_data 100 0).1] :=
  ⟨by decide, csv_download_direct 100 0 (by decide)⟩

/-- Counterexample for C8: with the admissible slider value 100, the
Charts page branch raises - its 3D scatter samples 200 rows from the
100-row table - so the claim that every page renders to completion
without raising for every admissible sidebar value is false. -/
theorem charts_page_raises_at_100 :
    renderPage Page.charts 100 0 =
      Except.error "Cannot take a larger sample than population when replace is False" := by
  simp [renderPage, dfSample, nRows_generate_sample_data]

/-- C8 as amended: for every admissible slider value, each of the seven
pages other than Charts renders to completion without raising, and the
Charts page does so exactly when the row count is at least 200. -/
theorem pages_render_iff (p : Page) (n s0 : Nat) (h : admissibleRows n) :
    rendersWithoutRaising p n s0 = true ↔ (p = Page.charts → 200 ≤ n) := by
  obtain ⟨h1, h2, h3⟩ := h
  cases p <;>
    simp [rendersWithoutRaising, renderPage, dfSample, nRows_generate_sample_data, h1]
  by_cases hn : 200 ≤ n
  · simp [hn]
  · simp [hn]

/-- Witness for C8 as amended: at row count 200 the Charts page renders. -/
theorem pages_render_iff_witness :
    admissibleRows 200 ∧
    (rendersWithoutRaising Page.charts 200 0 = true ↔
      (Page.charts = Page.charts → 200 ≤ 200)) :=
  ⟨by decide, pages_render_iff Page.charts 200 0 (by decide)⟩

end StreamlitDemo
